import Mathlib

/-!
Verification development for the `vncwebproxy` repository.

The repository is a WebSocket VNC proxy: `proxyWS` is the one-directional
forwarding loop, `validateProxmoxURL` validates the backend target URL,
`ProxiedList` is the TTL-bounded credential cache, and `handleVNCWebSocket`
is the per-session handler that resolves the token, validates the URL,
upgrades the client, dials the backend with credential headers, and starts
the relay pair.

All definitions below are shallow embeddings of the corresponding Go
functions; I/O effects (reads, writes, timer firings) are made explicit as
event streams or serialized state transitions.
-/

namespace VNCWebProxy

/-! ### The relay loop `proxyWS`

A WebSocket message carries a frame type (`mt` in the source) and a byte
payload. Errors returned by `ReadMessage`/`WriteMessage` are either close
errors with a numeric close code (matched by `websocket.IsCloseError`) or
some other error. The recovered-panic error produced by the deferred
handler (`fmt.Errorf("panic: %v", r)`) is represented by a separate
constructor so it can be distinguished in statements.
-/

structure Msg where
  mt : Nat
  payload : List Nat
deriving DecidableEq, Repr

inductive WSErr where
  | closeErr (code : Nat)
  | otherErr (s : String)
  | panicErr (s : String)
deriving DecidableEq, Repr

/-- The close codes passed to `websocket.IsCloseError` in `proxyWS`:
`CloseNormalClosure` (1000), `CloseNoStatusReceived` (1005),
`CloseGoingAway` (1001), `CloseAbnormalClosure` (1006). -/
def gracefulCodes : List Nat := [1000, 1005, 1001, 1006]

/-- Model of `websocket.IsCloseError(err, codes...)`: true exactly when the
error is a close error whose code is one of `codes`. -/
def isCloseError (e : WSErr) (codes : List Nat) : Bool :=
  match e with
  | .closeErr c => codes.contains c
  | _ => false

/-- The outcome sent on `errc` when a read or write fails: `nil` for a
recognized graceful close, the error itself otherwise (source lines 33-50
and 100-120 of the relay file). -/
def classifyFailure (e : WSErr) : Option WSErr :=
  if isCloseError e gracefulCodes then none else some e

/-- One event produced by `src.ReadMessage()`: a message, an error, or an
internal fault (panic) raised during the iteration before the send. -/
inductive ReadEvent where
  | ok (m : Msg)
  | fail (e : WSErr)
  | panic (s : String)
deriving DecidableEq, Repr

/-- One result of `dst.WriteMessage(mt, msg)`. -/
inductive WriteResult where
  | ok
  | fail (e : WSErr)
  | panic (s : String)
deriving DecidableEq, Repr

/-- How the loop body of `proxyWS` exits: a `return` after sending `sent`
on `errc`, a panic escaping to the deferred recover, or blocked forever on
a read (the event stream supplied no more events). -/
inductive LoopExit where
  | returned (sent : Option WSErr)
  | panicked (s : String)
  | blocked
deriving DecidableEq, Repr

/-- The `for` loop of `proxyWS`: reads events from `reads`; each successful
read is immediately written to the destination, consuming one element of
`writes` (an exhausted `writes` oracle means every further write succeeds).
Returns the messages successfully delivered to the destination and how the
loop body exited. -/
def proxyWSLoop : List ReadEvent → List WriteResult → List Msg × LoopExit
  | [], _ => ([], .blocked)
  | .fail e :: _, _ => ([], .returned (classifyFailure e))
  | .panic s :: _, _ => ([], .panicked s)
  | .ok m :: rs, ws =>
    match ws with
    | [] =>
      let r := proxyWSLoop rs []
      (m :: r.1, r.2)
    | .ok :: ws' =>
      let r := proxyWSLoop rs ws'
      (m :: r.1, r.2)
    | .fail e :: _ => ([], .returned (classifyFailure e))
    | .panic s :: _ => ([], .panicked s)

/-- Values sent on `errc` from inside the loop body (`errc <- nil` or
`errc <- err` immediately before each `return`). -/
def bodySends : LoopExit → List (Option WSErr)
  | .returned o => [o]
  | _ => []

/-- Values sent on `errc` by the deferred recover handler: exactly one
non-nil panic error when a panic escaped the loop body, nothing otherwise. -/
def deferSends : LoopExit → List (Option WSErr)
  | .panicked s => [some (.panicErr s)]
  | _ => []

/-- An execution of `proxyWS`: the messages delivered to the destination,
the full sequence of values sent on `errc` (loop-body sends followed by
deferred-recover sends), and whether the goroutine exited. -/
structure LoopRun where
  written : List Msg
  sends : List (Option WSErr)
  terminated : Bool
deriving DecidableEq, Repr

/-- `proxyWS` = the loop composed with the deferred recover handler. -/
def proxyWS (reads : List ReadEvent) (writes : List WriteResult) : LoopRun :=
  let r := proxyWSLoop reads writes
  { written := r.1
    sends := bodySends r.2 ++ deferSends r.2
    terminated := r.2 != LoopExit.blocked }

theorem proxyWSLoop_ok_nil (msgs : List Msg) :
    proxyWSLoop (msgs.map ReadEvent.ok) [] = (msgs, .blocked) := by
  induction msgs with
  | nil => rfl
  | cons m ms ih => simp [proxyWSLoop, ih]

theorem proxyWSLoop_ok_fail (msgs : List Msg) (e : WSErr) :
    proxyWSLoop (msgs.map ReadEvent.ok ++ [ReadEvent.fail e]) [] =
      (msgs, .returned (classifyFailure e)) := by
  induction msgs with
  | nil => rfl
  | cons m ms ih => simp [proxyWSLoop, ih]

/-- C1: every message successfully read from the source is delivered to the
destination with identical frame type and payload, in order, with no
drops, duplication, re-framing or cross-message buffering — both for a
stream of N messages followed by a read failure and for a stream that is
still open after the N messages. -/
theorem relay_preserves_messages (msgs : List Msg) (e : WSErr) :
    (proxyWS (msgs.map ReadEvent.ok ++ [ReadEvent.fail e]) []).written = msgs ∧
    (proxyWS (msgs.map ReadEvent.ok) []).written = msgs := by
  constructor
  · simp [proxyWS, proxyWSLoop_ok_fail]
  · simp [proxyWS, proxyWSLoop_ok_nil]

theorem proxyWSLoop_write_fail (ms1 : List Msg) (m : Msg) (rest : List ReadEvent)
    (e : WSErr) :
    proxyWSLoop (ms1.map ReadEvent.ok ++ ReadEvent.ok m :: rest)
        (List.replicate ms1.length WriteResult.ok ++ [WriteResult.fail e]) =
      (ms1, .returned (classifyFailure e)) := by
  induction ms1 with
  | nil => rfl
  | cons a as ih => simp [proxyWSLoop, List.replicate_succ, ih]

/-- C2: on a read or a write failure, the loop sends `nil` on `errc` and
stops exactly when the error is a close error with one of the recognized
graceful codes (normal closure 1000, no-status 1005, going-away 1001,
abnormal closure 1006); any other failure is sent on `errc` as the error
itself. Stated for a read failure after any number of forwarded messages,
and for a write failure on any message of the stream. -/
theorem failure_outcome_classification :
    (∀ (msgs : List Msg) (e : WSErr),
      (proxyWS (msgs.map ReadEvent.ok ++ [ReadEvent.fail e]) []).sends =
        [if isCloseError e gracefulCodes then none else some e]) ∧
    (∀ (ms1 : List Msg) (m : Msg) (rest : List ReadEvent) (e : WSErr),
      (proxyWS (ms1.map ReadEvent.ok ++ ReadEvent.ok m :: rest)
          (List.replicate ms1.length WriteResult.ok ++ [WriteResult.fail e])).sends =
        [if isCloseError e gracefulCodes then none else some e]) := by
  constructor
  · intro msgs e
    simp [proxyWS, proxyWSLoop_ok_fail, bodySends, deferSends, classifyFailure]
  · intro ms1 m rest e
    simp [proxyWS, proxyWSLoop_write_fail, bodySends, deferSends, classifyFailure]

/-- C3: every terminating execution of the forwarding loop sends exactly
one value on `errc` (never zero, never two); a panic inside the loop body
is recovered by the deferred handler and converted into a single non-nil
panic-error outcome; and as long as the loop has not exited it has sent
nothing. -/
theorem loop_sends_exactly_one (reads : List ReadEvent) (writes : List WriteResult) :
    ((proxyWS reads writes).terminated = true →
      (proxyWS reads writes).sends.length = 1) ∧
    (∀ s, (proxyWSLoop reads writes).2 = LoopExit.panicked s →
      (proxyWS reads writes).sends = [some (WSErr.panicErr s)]) ∧
    ((proxyWS reads writes).terminated = false →
      (proxyWS reads writes).sends = []) := by
  rcases hr : proxyWSLoop reads writes with ⟨w, ex⟩
  simp only [proxyWS, hr]
  cases ex with
  | returned o =>
    refine ⟨fun _ => rfl, fun s hs => by simp at hs, fun h => by simp at h⟩
  | panicked s =>
    refine ⟨fun _ => rfl, fun s' hs => ?_, fun h => by simp at h⟩
    have hss : s = s' := by simpa using hs
    simp [hss, bodySends, deferSends]
  | blocked =>
    refine ⟨fun h => by simp at h, fun s hs => by simp at hs, fun _ => rfl⟩

/-- Concrete instance of `loop_sends_exactly_one`: a loop whose first
iteration panics exits with exactly one send, the recovered panic error. -/
theorem loop_sends_exactly_one_witness :
    (proxyWS [ReadEvent.panic "boom"] []).terminated = true ∧
    (proxyWS [ReadEvent.panic "boom"] []).sends.length = 1 ∧
    (proxyWS [ReadEvent.panic "boom"] []).sends = [some (WSErr.panicErr "boom")] :=
  ⟨rfl, (loop_sends_exactly_one [ReadEvent.panic "boom"] []).1 rfl,
    (loop_sends_exactly_one [ReadEvent.panic "boom"] []).2.1 "boom" rfl⟩

/-! ### The credential cache `ProxiedList`

Time is modelled as a natural number of abstract ticks. A `time.Timer`
created by `time.AfterFunc(ttl, func(){ pl.data.Delete(key) })` is a
record holding the key its callback deletes, its firing deadline, and
whether it has been stopped (`timer.Stop()`) or has already fired.
The `sync.Map` is an association list with at most one binding per key;
each binding also remembers the index of the timer installed for it.

`Add` is decomposed into the three atomic actions the Go code performs in
order — load-and-stop the old timer (lines 32-35), create an armed timer
(line 46), store the new item (line 50) — so that the serialized
operations and the interleaved executions of the concurrency claim are
built from the same embedded code.
-/

structure ProxiedItem where
  token : String
  cookie : String
  csrfPreventionToken : String
  url : String
deriving DecidableEq, Repr

structure TimerRec where
  key : String
  deadline : Nat
  stopped : Bool
  fired : Bool
deriving DecidableEq, Repr

structure ProxiedList where
  ttl : Nat
  entries : List (String × ProxiedItem × Nat)
  timers : List TimerRec
deriving DecidableEq, Repr

def emptyList (ttl : Nat) : ProxiedList := ⟨ttl, [], []⟩

/-- `pl.data.Load(key)` on the association list. -/
def lookupEntry (k : String) : List (String × ProxiedItem × Nat) → Option (ProxiedItem × Nat)
  | [] => none
  | (k', it, tid) :: rest => if k' = k then some (it, tid) else lookupEntry k rest

/-- Removing every binding of `k` (used by `Store`, `Delete`). -/
def eraseKey (k : String) : List (String × ProxiedItem × Nat) → List (String × ProxiedItem × Nat)
  | [] => []
  | (k', it, tid) :: rest =>
    if k' = k then eraseKey k rest else (k', it, tid) :: eraseKey k rest

/-- `timer.Stop()` on the timer with index `tid`; no-op when the index is
out of range. -/
def stopTimer : Nat → List TimerRec → List TimerRec
  | _, [] => []
  | 0, t :: ts => { t with stopped := true } :: ts
  | n + 1, t :: ts => t :: stopTimer n ts

/-- Atomic action 1 of `Add` (source lines 32-35): load the old item under
`key` and stop its timer, if present. -/
def msLoadStop (k : String) (s : ProxiedList) : ProxiedList :=
  match lookupEntry k s.entries with
  | some (_, tid) => { s with timers := stopTimer tid s.timers }
  | none => s

/-- Atomic action 2 of `Add` (source line 46): `time.AfterFunc` creates a
new armed timer whose callback will delete `key`; returns its index. -/
def msArm (k : String) (deadline : Nat) (s : ProxiedList) : ProxiedList × Nat :=
  ({ s with timers := s.timers ++ [⟨k, deadline, false, false⟩] }, s.timers.length)

/-- Atomic action 3 of `Add` (source line 50): `pl.data.Store(key, item)`. -/
def msStore (k : String) (it : ProxiedItem) (tid : Nat) (s : ProxiedList) : ProxiedList :=
  { s with entries := (k, it, tid) :: eraseKey k s.entries }

/-- `ProxiedList.Add`, run to completion without interleaving: the three
atomic actions in source order. `now` is the current time, so the new
timer's deadline is `now + ttl`. -/
def ProxiedList.add (now : Nat) (k token cookie csrf url : String)
    (pl : ProxiedList) : ProxiedList :=
  let pl1 := msLoadStop k pl
  let armed := msArm k (now + pl.ttl) pl1
  msStore k ⟨token, cookie, csrf, url⟩ armed.2 armed.1

/-- `ProxiedList.Get`: a pure `Load`; returns the four stored fields or a
not-found error. It does not modify the state. -/
def ProxiedList.get (k : String) (pl : ProxiedList) :
    Except String (String × String × String × String) :=
  match lookupEntry k pl.entries with
  | some (it, _) => .ok (it.token, it.cookie, it.csrfPreventionToken, it.url)
  | none => .error ("key " ++ k ++ " not found")

/-- `ProxiedList.Remove`: stop the entry's timer and delete it; no-op when
absent. -/
def ProxiedList.remove (k : String) (pl : ProxiedList) : ProxiedList :=
  match lookupEntry k pl.entries with
  | some (_, tid) =>
    { pl with timers := stopTimer tid pl.timers, entries := eraseKey k pl.entries }
  | none => pl

/-- Whether a timer is due to fire at time `now`: armed (neither stopped
nor already fired) and past its deadline. -/
def timerDue (now : Nat) (t : TimerRec) : Bool :=
  !t.stopped && !t.fired && decide (t.deadline ≤ now)

/-- The scheduler at time `now`: every due timer fires, i.e. its callback
`pl.data.Delete(key)` runs and the timer is spent. Each Go timer fires at
most once. -/
def fireDue (now : Nat) (pl : ProxiedList) : ProxiedList :=
  { pl with
    entries :=
      ((pl.timers.filter (timerDue now)).map TimerRec.key).foldl
        (fun es k => eraseKey k es) pl.entries,
    timers := pl.timers.map (fun t => if timerDue now t then { t with fired := true } else t) }

/-- Serialized `Add` at time `now`: all timers due at `now` have fired
before the call runs. -/
def addAt (now : Nat) (k token cookie csrf url : String) (pl : ProxiedList) : ProxiedList :=
  ProxiedList.add now k token cookie csrf url (fireDue now pl)

/-- Serialized `Get` observation at time `now`. -/
def getAt (now : Nat) (k : String) (pl : ProxiedList) :
    Except String (String × String × String × String) :=
  ProxiedList.get k (fireDue now pl)

/-- Serialized `Remove` at time `now`. -/
def removeAt (now : Nat) (k : String) (pl : ProxiedList) : ProxiedList :=
  ProxiedList.remove k (fireDue now pl)

/-- Number of armed (created, not stopped, not yet fired) expiry timers
whose callback targets token `k`. -/
def armedCount (k : String) (pl : ProxiedList) : Nat :=
  (pl.timers.filter (fun t => t.key == k && !t.stopped && !t.fired)).length

theorem addAt_empty (ttl t0 : Nat) (k tok c cs u : String) :
    addAt t0 k tok c cs u (emptyList ttl) =
      ⟨ttl, [(k, ⟨tok, c, cs, u⟩, 0)], [⟨k, t0 + ttl, false, false⟩]⟩ := rfl

/-- C4: a `Get` performed after `Add(t, fields…)` and strictly before the
TTL deadline returns exactly the submitted four fields (and, since the
time of the `Get` is universally quantified over the window and `Get`
does not modify the cache, any second `Get` in the window returns the
same record); once the deadline has passed with no intervening call, and
likewise for a token never added or one removed, `Get` reports the
not-found error. -/
theorem cache_get_after_add (ttl t0 t1 : Nat) (k tok c cs u : String) :
    (t1 < t0 + ttl →
      getAt t1 k (addAt t0 k tok c cs u (emptyList ttl)) = .ok (tok, c, cs, u)) ∧
    (t0 + ttl ≤ t1 →
      getAt t1 k (addAt t0 k tok c cs u (emptyList ttl)) =
        .error ("key " ++ k ++ " not found")) ∧
    getAt t1 k (emptyList ttl) = .error ("key " ++ k ++ " not found") ∧
    (∀ tr, getAt t1 k (removeAt tr k (addAt t0 k tok c cs u (emptyList ttl))) =
      .error ("key " ++ k ++ " not found")) := by
  refine ⟨?_, ?_, ?_, ?_⟩
  · intro h
    have h' : ¬ (t0 + ttl ≤ t1) := by omega
    simp [getAt, addAt_empty, fireDue, timerDue, ProxiedList.get, lookupEntry, h']
  · intro h
    simp [getAt, addAt_empty, fireDue, timerDue, ProxiedList.get, lookupEntry, eraseKey, h]
  · simp [getAt, emptyList, fireDue, ProxiedList.get, lookupEntry]
  · intro tr
    by_cases h : t0 + ttl ≤ tr
    · simp [getAt, removeAt, addAt_empty, fireDue, timerDue, ProxiedList.remove,
        ProxiedList.get, lookupEntry, eraseKey, h]
    · simp [getAt, removeAt, addAt_empty, fireDue, timerDue, ProxiedList.remove,
        ProxiedList.get, lookupEntry, eraseKey, stopTimer, h]

/-- Concrete instance of `cache_get_after_add` with TTL 60: a `Get` 5
ticks after the `Add` returns the fields, a `Get` at the deadline reports
not-found. -/
theorem cache_get_after_add_witness :
    getAt 5 "t" (addAt 0 "t" "a" "b" "c" "wss://h/vncwebsocket" (emptyList 60)) =
      .ok ("a", "b", "c", "wss://h/vncwebsocket") ∧
    getAt 60 "t" (addAt 0 "t" "a" "b" "c" "wss://h/vncwebsocket" (emptyList 60)) =
      .error ("key " ++ "t" ++ " not found") :=
  ⟨(cache_get_after_add 60 0 5 "t" "a" "b" "c" "wss://h/vncwebsocket").1 (by omega),
   (cache_get_after_add 60 0 60 "t" "a" "b" "c" "wss://h/vncwebsocket").2.1 (by omega)⟩

/-- C5: re-`Add`-ing a token that still has a live entry stops the prior
entry's timer and installs a fresh one with a full TTL: a `Get` at any
time strictly less than one TTL after the second `Add` still returns the
second `Add`'s fields — in particular the first `Add`'s expiry never
deletes the replacement entry — and after the second `Add` exactly one
armed timer exists for the token. -/
theorem cache_readd_resets_expiry (ttl t0 t1 t2 : Nat)
    (k tok1 c1 cs1 u1 tok2 c2 cs2 u2 : String)
    (h1 : t1 < t0 + ttl) (h2 : t2 < t1 + ttl) :
    getAt t2 k (addAt t1 k tok2 c2 cs2 u2 (addAt t0 k tok1 c1 cs1 u1 (emptyList ttl))) =
      .ok (tok2, c2, cs2, u2) ∧
    armedCount k (addAt t1 k tok2 c2 cs2 u2 (addAt t0 k tok1 c1 cs1 u1 (emptyList ttl))) = 1 := by
  have hd1 : ¬ (t0 + ttl ≤ t1) := by omega
  have hd2 : ¬ (t1 + ttl ≤ t2) := by omega
  have hstep :
      addAt t1 k tok2 c2 cs2 u2 (addAt t0 k tok1 c1 cs1 u1 (emptyList ttl)) =
        ⟨ttl, [(k, ⟨tok2, c2, cs2, u2⟩, 1)],
          [⟨k, t0 + ttl, true, false⟩, ⟨k, t1 + ttl, false, false⟩]⟩ := by
    rw [addAt_empty]
    simp [addAt, fireDue, timerDue, hd1, ProxiedList.add, msLoadStop,
      lookupEntry, stopTimer, msArm, msStore, eraseKey]
  refine ⟨?_, ?_⟩
  · rw [hstep]
    simp [getAt, fireDue, timerDue, hd2, ProxiedList.get, lookupEntry]
  · rw [hstep]
    simp [armedCount]

/-- Concrete instance of `cache_readd_resets_expiry` with TTL 60: the
first `Add` at time 0, the second at time 30, the `Get` at time 80 — past
the first `Add`'s deadline of 60 but inside the second window — still
succeeds with the second `Add`'s fields. -/
theorem cache_readd_resets_expiry_witness :
    getAt 80 "t" (addAt 30 "t" "a2" "b2" "c2" "u2"
        (addAt 0 "t" "a1" "b1" "c1" "u1" (emptyList 60))) =
      .ok ("a2", "b2", "c2", "u2") :=
  (cache_readd_resets_expiry 60 0 30 80 "t" "a1" "b1" "c1" "u1" "a2" "b2" "c2" "u2"
    (by omega) (by omega)).1

/-- The state reached by two concurrent `Add("k", …)` calls, A and B,
interleaved at the granularity of the three atomic actions of `Add`:
A's load-and-stop, B's load-and-stop, A's `time.AfterFunc`, B's
`time.AfterFunc`, A's `Store`, B's `Store`. Each action is exactly the
corresponding step of the serialized `ProxiedList.add`. -/
def racedState : ProxiedList :=
  let s0 := emptyList 60
  let s1 := msLoadStop "k" s0
  let s2 := msLoadStop "k" s1
  let a3 := msArm "k" 60 s2
  let a4 := msArm "k" 60 a3.1
  let s5 := msStore "k" ⟨"tokA", "", "", "uA"⟩ a3.2 a4.1
  msStore "k" ⟨"tokB", "", "", "uB"⟩ a4.2 s5

/-- C8 (refuting evaluation): after the interleaved pair of `Add`s on the
same token, the cache holds two armed expiry timers for token `"k"` —
the atomicity the claim asserts does not hold for concurrent `Add`s. -/
theorem concurrent_adds_leave_two_armed_timers : armedCount "k" racedState = 2 := rfl

/-! ### `validateProxmoxURL` and the session handler `handleVNCWebSocket`

A successfully parsed URL (`net/url.Parse`) is reduced to the fields the
code reads: scheme, host, path. The parse itself is an oracle parameter
(`Option GoURL`, `none` = parse error); both parse call sites in the
handler parse the same `targetURL` string, so they share one oracle value.
-/

structure GoURL where
  scheme : String
  host : String
  path : String
deriving DecidableEq, Repr

/-- `sub` is an initial segment of `s`. -/
def hasPrefixL : List Char → List Char → Bool
  | _, [] => true
  | [], _ :: _ => false
  | a :: s, b :: t => a == b && hasPrefixL s t

/-- `sub` occurs somewhere inside `s`. -/
def containsL (sub : List Char) : List Char → Bool
  | [] => sub.isEmpty
  | c :: rest => hasPrefixL (c :: rest) sub || containsL sub rest

/-- Go's `strings.Contains(s, substr)`. -/
def goContains (s substr : String) : Bool :=
  containsL substr.data s.data

/-- `validateProxmoxURL` on the parse result of its argument: reject a
parse error, then a scheme other than `wss`/`ws`, then a path that does
not contain the substring `"/vncwebsocket"`; otherwise accept
(`none` = the Go function returns `nil`). -/
def validateProxmoxURL (parsed : Option GoURL) : Option String :=
  match parsed with
  | none => some "invalid URL"
  | some u =>
    if u.scheme ≠ "wss" ∧ u.scheme ≠ "ws" then
      some ("invalid scheme: " ++ u.scheme ++ ", expected ws or wss")
    else if goContains u.path "/vncwebsocket" then none
    else some ("invalid path: " ++ u.path ++ ", expected VNC websocket path")

/-- The socket-opening operations `handleVNCWebSocket` can perform, in
the order it performs them. -/
inductive SocketAction where
  | upgradeClient
  | dialBackend
deriving DecidableEq, Repr

/-- How `handleVNCWebSocket` finishes. `clientError` is `ctx.String`
(a plain-text response) with the given status code. -/
inductive HandlerResult where
  | clientError (status : Nat) (body : String)
  | upgradeFailed
  | parseFailed
  | dialFailed
  | relaying
deriving DecidableEq, Repr

/-- The environment a run of `handleVNCWebSocket` observes: the result of
`proxied.Get(data)`, the parse of the stored target URL, and whether the
client upgrade and the backend dial succeed when attempted. -/
structure HandlerEnv where
  cacheResult : Except String (String × String × String × String)
  parsed : Option GoURL
  upgradeOk : Bool
  dialOk : Bool

/-- `http.Header.Set`: replaces any previous value of the key. -/
def setHeader (k v : String) (hs : List (String × String)) : List (String × String) :=
  (k, v) :: hs.filter (fun p => p.1 ≠ k)

/-- Lookup of a header value. -/
def getHeader (hs : List (String × String)) (k : String) : Option String :=
  (hs.find? (fun p => p.1 == k)).map (fun p => p.2)

/-- The headers attached to the backend dial (source lines 214-233 of
`api.go`): the bearer-token branch excludes the cookie/CSRF branch, then
the fixed headers are set unconditionally. -/
def buildDialHeaders (token cookie csrf : String) (u : GoURL) : List (String × String) :=
  let hs : List (String × String) := []
  let hs :=
    if token = "" then
      let hs := if cookie = "" then hs else setHeader "Cookie" ("PVEAuthCookie=" ++ cookie) hs
      if csrf = "" then hs else setHeader "CSRFPreventionToken" csrf hs
    else
      setHeader "Authorization" ("PVEAPIToken=" ++ token) hs
  let hs := setHeader "Host" u.host hs
  let hs := setHeader "Origin" ("https://" ++ u.host) hs
  let hs := setHeader "User-Agent" "Mozilla/5.0" hs
  let hs := setHeader "Accept-Encoding" "gzip, deflate, br" hs
  let hs := setHeader "Accept-Language" "en-US,en;q=0.9" hs
  let hs := setHeader "Cache-Control" "no-cache" hs
  setHeader "Pragma" "no-cache" hs

/-- `handleVNCWebSocket`, as the sequence of socket actions attempted and
the final result. Mirrors the source control flow: cache lookup, URL
validation, client upgrade, re-parse of the target URL, backend dial. -/
def handleVNCWebSocket (env : HandlerEnv) : List SocketAction × HandlerResult :=
  match env.cacheResult with
  | .error e => ([], .clientError 400 ("token and url error: " ++ e))
  | .ok _ =>
    match validateProxmoxURL env.parsed with
    | some e => ([], .clientError 400 ("invalid URL: " ++ e))
    | none =>
      if env.upgradeOk = false then ([.upgradeClient], .upgradeFailed)
      else
        match env.parsed with
        | none => ([.upgradeClient], .parseFailed)
        | some _ =>
          if env.dialOk = false then ([.upgradeClient, .dialBackend], .dialFailed)
          else ([.upgradeClient, .dialBackend], .relaying)

/-- C9: for a URL that parses and whose scheme is `ws` or `wss`,
`validateProxmoxURL` accepts exactly when the string `"/vncwebsocket"`
occurs as a substring anywhere inside the path — substring containment,
not path-segment matching. -/
theorem validate_path_is_substring_containment (u : GoURL)
    (h : u.scheme = "ws" ∨ u.scheme = "wss") :
    validateProxmoxURL (some u) = none ↔ goContains u.path "/vncwebsocket" = true := by
  have hs : ¬ (u.scheme ≠ "wss" ∧ u.scheme ≠ "ws") := by
    rcases h with h | h <;> simp [h]
  by_cases hc : goContains u.path "/vncwebsocket" = true <;>
    simp [validateProxmoxURL, hs, hc]

/-- Concrete instance of `validate_path_is_substring_containment`: the
path `"/a/vncwebsocketextra/b"` does not have `"/vncwebsocket"` as a path
segment, yet the URL is accepted. -/
theorem validate_path_is_substring_containment_witness :
    validateProxmoxURL (some ⟨"wss", "host", "/a/vncwebsocketextra/b"⟩) = none :=
  (validate_path_is_substring_containment ⟨"wss", "host", "/a/vncwebsocketextra/b"⟩
    (Or.inr rfl)).mpr rfl

/-- C6: when the token resolves but the target endpoint has a scheme
other than `ws`/`wss` or a path without the backend VNC gateway segment,
the handler responds with a plain-text 400 client error and attempts no
socket operation at all — neither the client upgrade nor the backend
dial. -/
theorem invalid_target_rejected_before_sockets (env : HandlerEnv)
    (fields : String × String × String × String) (u : GoURL)
    (hc : env.cacheResult = .ok fields) (hp : env.parsed = some u)
    (hbad : (u.scheme ≠ "ws" ∧ u.scheme ≠ "wss") ∨
      goContains u.path "/vncwebsocket" = false) :
    ∃ msg, handleVNCWebSocket env = ([], .clientError 400 msg) := by
  obtain ⟨e, he⟩ : ∃ e, validateProxmoxURL (some u) = some e := by
    by_cases hs : u.scheme ≠ "wss" ∧ u.scheme ≠ "ws"
    · exact ⟨"invalid scheme: " ++ u.scheme ++ ", expected ws or wss",
        by simp [validateProxmoxURL, hs]⟩
    · rcases hbad with ⟨h1, h2⟩ | hpath
      · exact absurd ⟨h2, h1⟩ hs
      · exact ⟨"invalid path: " ++ u.path ++ ", expected VNC websocket path",
          by simp [validateProxmoxURL, hs, hpath]⟩
  exact ⟨"invalid URL: " ++ e, by simp [handleVNCWebSocket, hc, hp, he]⟩

/-- Concrete instance of `invalid_target_rejected_before_sockets`: an
`https` target URL is rejected with a 400 response and an empty list of
socket actions. -/
theorem invalid_target_rejected_before_sockets_witness :
    ∃ msg,
      handleVNCWebSocket
        { cacheResult := .ok ("tok", "", "", "https://h/vncwebsocket"),
          parsed := some ⟨"https", "h", "/vncwebsocket"⟩,
          upgradeOk := true, dialOk := true } =
        ([], .clientError 400 msg) :=
  invalid_target_rejected_before_sockets
    { cacheResult := .ok ("tok", "", "", "https://h/vncwebsocket"),
      parsed := some ⟨"https", "h", "/vncwebsocket"⟩,
      upgradeOk := true, dialOk := true }
    ("tok", "", "", "https://h/vncwebsocket") ⟨"https", "h", "/vncwebsocket"⟩
    rfl rfl (Or.inl (by simp))

/-- C7: the two credential header sets of the backend dial are mutually
exclusive — with a non-empty bearer token only `Authorization:
PVEAPIToken=<token>` is set and neither `Cookie` nor
`CSRFPreventionToken` is; with an empty token no `Authorization` is set
and `Cookie`/`CSRFPreventionToken` are each set exactly when the
corresponding stored field is non-empty; the fixed
Host/Origin/User-Agent/encoding headers are set in every case. -/
theorem dial_headers_mutually_exclusive (token cookie csrf : String) (u : GoURL) :
    (token ≠ "" →
      getHeader (buildDialHeaders token cookie csrf u) "Authorization" =
        some ("PVEAPIToken=" ++ token) ∧
      getHeader (buildDialHeaders token cookie csrf u) "Cookie" = none ∧
      getHeader (buildDialHeaders token cookie csrf u) "CSRFPreventionToken" = none) ∧
    (token = "" →
      getHeader (buildDialHeaders token cookie csrf u) "Authorization" = none ∧
      getHeader (buildDialHeaders token cookie csrf u) "Cookie" =
        (if cookie = "" then none else some ("PVEAuthCookie=" ++ cookie)) ∧
      getHeader (buildDialHeaders token cookie csrf u) "CSRFPreventionToken" =
        (if csrf = "" then none else some csrf)) ∧
    getHeader (buildDialHeaders token cookie csrf u) "Host" = some u.host ∧
    getHeader (buildDialHeaders token cookie csrf u) "Origin" =
      some ("https://" ++ u.host) ∧
    getHeader (buildDialHeaders token cookie csrf u) "User-Agent" =
      some "Mozilla/5.0" ∧
    getHeader (buildDialHeaders token cookie csrf u) "Accept-Encoding" =
      some "gzip, deflate, br" := by
  by_cases ht : token = "" <;> by_cases hco : cookie = "" <;> by_cases hcs : csrf = "" <;>
    simp [buildDialHeaders, setHeader, getHeader, ht, hco, hcs]

/-- Concrete instance of `dial_headers_mutually_exclusive` on both
branches: a non-empty token yields only the Authorization credential
header, an empty token yields the cookie header. -/
theorem dial_headers_mutually_exclusive_witness :
    getHeader (buildDialHeaders "T" "C" "X" ⟨"wss", "h", "/p"⟩) "Authorization" =
      some ("PVEAPIToken=" ++ "T") ∧
    getHeader (buildDialHeaders "T" "C" "X" ⟨"wss", "h", "/p"⟩) "Cookie" = none ∧
    getHeader (buildDialHeaders "" "C" "X" ⟨"wss", "h", "/p"⟩) "Authorization" = none ∧
    getHeader (buildDialHeaders "" "C" "X" ⟨"wss", "h", "/p"⟩) "Cookie" =
      some ("PVEAuthCookie=" ++ "C") ∧
    getHeader (buildDialHeaders "T" "C" "X" ⟨"wss", "h", "/p"⟩) "Host" = some "h" := by
  refine ⟨((dial_headers_mutually_exclusive "T" "C" "X" ⟨"wss", "h", "/p"⟩).1 (by decide)).1,
    ((dial_headers_mutually_exclusive "T" "C" "X" ⟨"wss", "h", "/p"⟩).1 (by decide)).2.1,
    ((dial_headers_mutually_exclusive "" "C" "X" ⟨"wss", "h", "/p"⟩).2.1 rfl).1,
    ?_,
    (dial_headers_mutually_exclusive "T" "C" "X" ⟨"wss", "h", "/p"⟩).2.2.1⟩
  have h := ((dial_headers_mutually_exclusive "" "C" "X" ⟨"wss", "h", "/p"⟩).2.1 rfl).2.1
  simpa using h

/-- C10: credential presence means non-empty string at the dial site — an
`Add` whose token field is the empty string still succeeds and `Get`
returns it, yet the dial takes the cookie/CSRF branch (no `Authorization`
header); and when token, cookie and CSRF are all empty no credential
header at all is attached, only the fixed headers. -/
theorem empty_credentials_cookie_branch (ttl t0 : Nat) (k cookie csrf url : String)
    (u : GoURL) (h : 0 < ttl) :
    getAt t0 k (addAt t0 k "" cookie csrf url (emptyList ttl)) =
      .ok ("", cookie, csrf, url) ∧
    getHeader (buildDialHeaders "" cookie csrf u) "Authorization" = none ∧
    (cookie ≠ "" →
      getHeader (buildDialHeaders "" cookie csrf u) "Cookie" =
        some ("PVEAuthCookie=" ++ cookie)) ∧
    getHeader (buildDialHeaders "" "" "" u) "Authorization" = none ∧
    getHeader (buildDialHeaders "" "" "" u) "Cookie" = none ∧
    getHeader (buildDialHeaders "" "" "" u) "CSRFPreventionToken" = none ∧
    getHeader (buildDialHeaders "" "" "" u) "Host" = some u.host ∧
    getHeader (buildDialHeaders "" "" "" u) "User-Agent" = some "Mozilla/5.0" := by
  have hne : ¬ (t0 + ttl ≤ t0) := by omega
  refine ⟨?_, ?_, ?_, ?_, ?_, ?_, ?_, ?_⟩
  · simp [getAt, addAt_empty, fireDue, timerDue, ProxiedList.get, lookupEntry, hne]
  · by_cases hco : cookie = "" <;> by_cases hcs : csrf = "" <;>
      simp [buildDialHeaders, setHeader, getHeader, hco, hcs]
  · intro hco
    by_cases hcs : csrf = "" <;>
      simp [buildDialHeaders, setHeader, getHeader, hco, hcs]
  · simp [buildDialHeaders, setHeader, getHeader]
  · simp [buildDialHeaders, setHeader, getHeader]
  · simp [buildDialHeaders, setHeader, getHeader]
  · simp [buildDialHeaders, setHeader, getHeader]
  · simp [buildDialHeaders, setHeader, getHeader]

/-- Concrete instance of `empty_credentials_cookie_branch` with TTL 60:
an empty token stored under `"t"` is returned by `Get`, and the dial
carries the cookie header and no `Authorization`. -/
theorem empty_credentials_cookie_branch_witness :
    getAt 0 "t" (addAt 0 "t" "" "C" "X" "wss://h/vncwebsocket" (emptyList 60)) =
      .ok ("", "C", "X", "wss://h/vncwebsocket") ∧
    getHeader (buildDialHeaders "" "C" "X" ⟨"wss", "h", "/vncwebsocket"⟩)
      "Authorization" = none ∧
    getHeader (buildDialHeaders "" "C" "X" ⟨"wss", "h", "/vncwebsocket"⟩)
      "Cookie" = some ("PVEAuthCookie=" ++ "C") := by
  obtain ⟨h1, h2, h3, -⟩ :=
    empty_credentials_cookie_branch 60 0 "t" "C" "X" "wss://h/vncwebsocket"
      ⟨"wss", "h", "/vncwebsocket"⟩ (by omega)
  exact ⟨h1, h2, h3 (by decide)⟩

end VNCWebProxy
